import Mathlib

/-!
A shallow embedding of the guarded sequential workflow engine of the
Gosh-Slack-CLI-Manager repository, translated from
`src/components/updater.rs`, `src/components/sbotools.rs`, `src/app.rs`,
`src/slackware/config.rs` and `src/slackware/commands.rs`, together with
theorems settling the specification claims about it.

External effects are made explicit inputs: filesystem path existence is a
record of booleans threaded into `Bootloader.detect`, and process execution
results are values of `CommandResult` fed to the engine.  Rendering and the
progress channel are ignored; they read state without mutating it.
-/

namespace SlackCLI

/-! ## Data model (src/ui/widgets.rs) -/

/-- `StepStatus` from src/ui/widgets.rs. -/
inductive StepStatus where
  | Pending
  | Running
  | Complete
  | Failed (reason : String)
deriving DecidableEq

/-- `ProgressStep` from src/ui/widgets.rs. -/
structure ProgressStep where
  name : String
  status : StepStatus
deriving DecidableEq

/-- `ProgressStep::new`: a fresh step is `Pending`. -/
def ProgressStep.new (n : String) : ProgressStep :=
  { name := n, status := StepStatus.Pending }

/-- The Rust assignment `steps[i].status = st`.  Out of bounds it is a
no-op; every assignment site in the source is guarded in bounds. -/
def setStepStatus : List ProgressStep → Nat → StepStatus → List ProgressStep
  | [], _, _ => []
  | s :: rest, 0, st => { name := s.name, status := st } :: rest
  | s :: rest, Nat.succ n, st => s :: setStepStatus rest n st

/-- The status recorded at index `i`, if in bounds. -/
def statusAt (steps : List ProgressStep) (i : Nat) : Option StepStatus :=
  (steps[i]?).map ProgressStep.status

/-! ## Environment classifier (src/slackware/config.rs, `Bootloader`) -/

/-- `Bootloader` from src/slackware/config.rs. -/
inductive Bootloader where
  | Lilo
  | Grub
  | Unknown
deriving DecidableEq

/-- Existence of the fixed filesystem paths `Bootloader::detect` probes.
`detect` performs only `Path::exists` checks, so path existence is the
entire external input of the classifier. -/
structure FsEnv where
  /-- `/etc/lilo.conf` exists. -/
  etc_lilo_conf : Bool
  /-- `/boot/grub/grub.cfg` exists. -/
  boot_grub_grub_cfg : Bool
  /-- `/etc/default/grub` exists. -/
  etc_default_grub : Bool
deriving DecidableEq

/-- `Bootloader::detect` (src/slackware/config.rs lines 18-32): LILO first,
then GRUB, else Unknown. -/
def Bootloader.detect (fs : FsEnv) : Bootloader :=
  if fs.etc_lilo_conf then Bootloader.Lilo
  else if fs.boot_grub_grub_cfg || fs.etc_default_grub then Bootloader.Grub
  else Bootloader.Unknown

/-! ## Risk detector support -/

/-- Whether `p` is a leading run of `s` (character lists). -/
def startsWithChars : List Char → List Char → Bool
  | [], _ => true
  | _ :: _, [] => false
  | p :: ps, c :: cs => p == c && startsWithChars ps cs

/-- Whether `pat` occurs contiguously somewhere in the character list. -/
def occursIn (pat : List Char) : List Char → Bool
  | [] => pat.isEmpty
  | c :: cs => startsWithChars pat (c :: cs) || occursIn pat cs

/-- Rust `str::contains(pat)` for a literal pattern: substring occurrence. -/
def strContains (s pat : String) : Bool :=
  occursIn pat.toList s.toList

/-- The `kernel_patterns` array of
`UpdaterComponent::check_for_kernel_update` (src/components/updater.rs
lines 92-99). -/
def kernel_patterns : List String :=
  ["kernel-generic", "kernel-huge", "kernel-modules",
   "kernel-source", "kernel-headers", "kernel-firmware"]

/-! ## Keyboard and message model -/

/-- The crossterm key codes the modelled handlers inspect.  All other key
codes fall into the wildcard arms of the source and are `otherKey`. -/
inductive KeyCode where
  | charKey (c : Char)
  | enterKey
  | backspaceKey
  | escKey
  | otherKey
deriving DecidableEq

/-- A key event: code plus whether the CONTROL modifier is held. -/
structure KeyEvent where
  code : KeyCode
  ctrl : Bool
deriving DecidableEq

/-- The subset of `app::Message` variants produced by the modelled
handlers (src/app.rs lines 36-69). -/
inductive Message where
  | Quit
  | StartUpdate
  | ContinueUpdate
deriving DecidableEq

/-! ## Updater component (src/components/updater.rs) -/

/-- The fixed five-step list built by `UpdaterComponent::new` and
`UpdaterComponent::reset`. -/
def updaterSteps : List ProgressStep :=
  [ProgressStep.new "Update package list",
   ProgressStep.new "Install new packages",
   ProgressStep.new "Upgrade all packages",
   ProgressStep.new "Clean system",
   ProgressStep.new "Update bootloader (lilo)"]

/-- `UpdaterComponent` state (src/components/updater.rs lines 17-32).
The progress channel is omitted: it only forwards display lines. -/
structure UpdaterComponent where
  steps : List ProgressStep
  current_step : Nat
  output_lines : List String
  is_running : Bool
  show_lilo_confirm : Bool
  lilo_confirmed : Bool
  bootloader : Bootloader
  kernel_updated : Bool
  skip_input : String
  lilo_skipped : Bool
  show_summary : Bool
deriving DecidableEq

/-- `UpdaterComponent::new` (lines 35-57). -/
def UpdaterComponent.new (fs : FsEnv) : UpdaterComponent :=
  { steps := updaterSteps
    current_step := 0
    output_lines := []
    is_running := false
    show_lilo_confirm := false
    lilo_confirmed := false
    bootloader := Bootloader.detect fs
    kernel_updated := false
    skip_input := ""
    lilo_skipped := false
    show_summary := false }

/-- `UpdaterComponent::reset` (lines 59-78): reassigns every modelled
field exactly as `new` does, re-detecting the bootloader. -/
def UpdaterComponent.reset (_u : UpdaterComponent) (fs : FsEnv) : UpdaterComponent :=
  UpdaterComponent.new fs

/-- `UpdaterComponent::start_update` (lines 80-84). -/
def UpdaterComponent.start_update (u : UpdaterComponent) (fs : FsEnv) : UpdaterComponent :=
  let u := u.reset fs
  { u with is_running := true, steps := setStepStatus u.steps 0 StepStatus.Running }

/-- `UpdaterComponent::add_output` (lines 86-88). -/
def UpdaterComponent.add_output (u : UpdaterComponent) (line : String) : UpdaterComponent :=
  { u with output_lines := u.output_lines ++ [line] }

/-- `UpdaterComponent::check_for_kernel_update` (lines 91-101). -/
def UpdaterComponent.check_for_kernel_update (_u : UpdaterComponent) (output : String) : Bool :=
  kernel_patterns.any (fun p => strContains output p)

/-- `UpdaterComponent::set_kernel_updated` (lines 104-109). -/
def UpdaterComponent.set_kernel_updated (u : UpdaterComponent) (updated : Bool) : UpdaterComponent :=
  let u := { u with kernel_updated := updated }
  if updated then
    u.add_output "*** KERNEL PACKAGES DETECTED - Bootloader update will be required ***"
  else u

/-- `UpdaterComponent::was_kernel_updated` (lines 112-114). -/
def UpdaterComponent.was_kernel_updated (u : UpdaterComponent) : Bool :=
  u.kernel_updated

/-- `UpdaterComponent::was_lilo_skipped` (lines 117-119). -/
def UpdaterComponent.was_lilo_skipped (u : UpdaterComponent) : Bool :=
  u.lilo_skipped

/-- The informational note of the GRUB arm of `step_complete` (line 144). -/
def grubSkipNote : String :=
  "GRUB detected - skipping LILO. Run \x27grub-mkconfig -o /boot/grub/grub.cfg\x27 if kernel was updated."

/-- The warning note of the Unknown arm of `step_complete` (line 153). -/
def unknownBootloaderNote : String :=
  "WARNING: No bootloader configuration found. Update your bootloader manually if needed."

/-- `UpdaterComponent::step_complete` (lines 126-175).  Marks the current
step, advances, and dispatches the bootloader special case at step 4. -/
def UpdaterComponent.step_complete (u : UpdaterComponent) (success : Bool)
    (error : Option String) : UpdaterComponent :=
  if u.current_step < u.steps.length then
    let recorded := if success then StepStatus.Complete
                    else StepStatus.Failed (error.getD "")
    let u := { u with steps := setStepStatus u.steps u.current_step recorded }
    let u := { u with current_step := u.current_step + 1 }
    if u.current_step < u.steps.length then
      if u.current_step == 4 then
        match u.bootloader with
        | Bootloader.Grub =>
          let u := { u with steps := setStepStatus u.steps u.current_step StepStatus.Complete }
          let u := u.add_output grubSkipNote
          { u with current_step := u.current_step + 1, is_running := false, show_summary := true }
        | Bootloader.Unknown =>
          let failed := StepStatus.Failed "No bootloader detected"
          let u := { u with steps := setStepStatus u.steps u.current_step failed }
          let u := u.add_output unknownBootloaderNote
          { u with current_step := u.current_step + 1, is_running := false, show_summary := true }
        | Bootloader.Lilo =>
          if !u.lilo_confirmed then
            { u with show_lilo_confirm := true, skip_input := "" }
          else
            { u with steps := setStepStatus u.steps u.current_step StepStatus.Running }
      else
        { u with steps := setStepStatus u.steps u.current_step StepStatus.Running }
    else
      { u with is_running := false, show_summary := true }
  else u

/-- `UpdaterComponent::confirm_lilo` (lines 177-193). -/
def UpdaterComponent.confirm_lilo (u : UpdaterComponent) (confirmed : Bool) : UpdaterComponent :=
  let u := { u with show_lilo_confirm := false, lilo_confirmed := confirmed }
  if confirmed then
    { u with steps := setStepStatus u.steps u.current_step StepStatus.Running }
  else
    let u := { u with lilo_skipped := true }
    let reason := if u.kernel_updated then StepStatus.Failed "SKIPPED - KERNEL WAS UPDATED!"
                  else StepStatus.Failed "Skipped by user"
    let u := { u with steps := setStepStatus u.steps u.current_step reason }
    { u with is_running := false, show_summary := true }

/-- `UpdaterComponent::dismiss_summary` (lines 196-198). -/
def UpdaterComponent.dismiss_summary (u : UpdaterComponent) : UpdaterComponent :=
  { u with show_summary := false }

/-- `UpdaterComponent::get_current_command` (lines 210-223). -/
def UpdaterComponent.get_current_command (u : UpdaterComponent) :
    Option (String × List String) :=
  if !u.is_running then none
  else
    match u.current_step with
    | 0 => some ("slackpkg", ["update"])
    | 1 => some ("slackpkg", ["install-new"])
    | 2 => some ("slackpkg", ["upgrade-all"])
    | 3 => some ("slackpkg", ["clean-system"])
    | 4 => if u.lilo_confirmed then some ("lilo", []) else none
    | _ => none

/-- `UpdaterComponent::needs_lilo_confirm` (lines 225-227). -/
def UpdaterComponent.needs_lilo_confirm (u : UpdaterComponent) : Bool :=
  u.show_lilo_confirm

/-- The `expected` array of the mandatory-gate input handler (line 417). -/
def skipExpected : List Char := ['S', 'K', 'I', 'P']

/-- The summary-dismissal region of `Component::handle_input` for
`UpdaterComponent` (src/components/updater.rs lines 398-403). -/
def UpdaterComponent.summary_input (u : UpdaterComponent) (key : KeyCode) :
    UpdaterComponent × Option Message :=
  match key with
  | KeyCode.enterKey => (u.dismiss_summary, none)
  | _ => (u, none)

/-- The mandatory-gate region of `Component::handle_input` for
`UpdaterComponent` (src/components/updater.rs lines 407-441): affirm with
Y, or type the bypass keyword. -/
def UpdaterComponent.mandatory_gate_input (u : UpdaterComponent) (key : KeyCode) :
    UpdaterComponent × Option Message :=
  match key with
  | KeyCode.charKey c =>
    if c == 'y' || c == 'Y' then
      (u.confirm_lilo true, some Message.ContinueUpdate)
    else
      let c_upper := c.toUpper
      let next_idx := u.skip_input.length
      if next_idx < 4 ∧ c_upper = skipExpected.getD next_idx ' ' then
        let u2 := { u with skip_input := u.skip_input.push c_upper }
        if u2.skip_input == "SKIP" then (u2.confirm_lilo false, none)
        else (u2, none)
      else
        ({ u with skip_input := "" }, none)
  | KeyCode.backspaceKey => ({ u with skip_input := u.skip_input.dropRight 1 }, none)
  | KeyCode.escKey => ({ u with skip_input := "" }, none)
  | _ => (u, none)

/-- The optional-gate region of `Component::handle_input` for
`UpdaterComponent` (src/components/updater.rs lines 443-455): Y/N, with
escape treated as N. -/
def UpdaterComponent.optional_gate_input (u : UpdaterComponent) (key : KeyCode) :
    UpdaterComponent × Option Message :=
  match key with
  | KeyCode.charKey c =>
    if c == 'y' || c == 'Y' then
      (u.confirm_lilo true, some Message.ContinueUpdate)
    else if c == 'n' || c == 'N' then
      (u.confirm_lilo false, none)
    else (u, none)
  | KeyCode.escKey => (u.confirm_lilo false, none)
  | _ => (u, none)

/-- The idle region of `Component::handle_input` for `UpdaterComponent`
(src/components/updater.rs lines 458-468): Enter starts a run, R resets. -/
def UpdaterComponent.idle_input (u : UpdaterComponent) (key : KeyCode)
    (fs : FsEnv) : UpdaterComponent × Option Message :=
  match key with
  | KeyCode.enterKey =>
    if !u.is_running then (u.start_update fs, some Message.StartUpdate) else (u, none)
  | KeyCode.charKey c =>
    if (c == 'r' || c == 'R') && !u.is_running then (u.reset fs, none) else (u, none)
  | _ => (u, none)

/-- `Component::handle_input` for `UpdaterComponent`
(src/components/updater.rs lines 396-469).  `fs` feeds the bootloader
re-detection performed by `start_update`/`reset`. -/
def UpdaterComponent.handle_input (u : UpdaterComponent) (key : KeyCode)
    (fs : FsEnv) : UpdaterComponent × Option Message :=
  if u.show_summary then
    u.summary_input key
  else if u.show_lilo_confirm then
    if u.kernel_updated then u.mandatory_gate_input key
    else u.optional_gate_input key
  else
    u.idle_input key fs

/-- Gate mode.  The source stores no mode value: the gate dialog and its
input handler dispatch on `kernel_updated` (updater.rs lines 233 and 407),
so the mode is this derived discriminator. -/
inductive GateMode where
  | Optional
  | Mandatory
deriving DecidableEq

/-- The gate mode the pending dialog is in, per the `kernel_updated`
dispatch of `handle_input` and `render_lilo_confirm`. -/
def UpdaterComponent.gate_mode (u : UpdaterComponent) : GateMode :=
  if u.kernel_updated then GateMode.Mandatory else GateMode.Optional

/-- The standing run outcome the host consults: `was_lilo_skipped` and
`was_kernel_updated` (updater.rs lines 112-119, read at app.rs line 182). -/
structure RunOutcome where
  gate_declined : Bool
  risk_flag : Bool
deriving DecidableEq

def UpdaterComponent.run_outcome (u : UpdaterComponent) : RunOutcome :=
  { gate_declined := u.was_lilo_skipped, risk_flag := u.was_kernel_updated }

/-! ## sbotools component (src/components/sbotools.rs) -/

/-- The fixed six-step list built by `SbotoolsComponent::new` and
`SbotoolsComponent::reset`. -/
def sbotoolsSteps : List ProgressStep :=
  [ProgressStep.new "Download sbopkg",
   ProgressStep.new "Install sbopkg",
   ProgressStep.new "Sync sbopkg repository",
   ProgressStep.new "Install sbotools",
   ProgressStep.new "Configure sbotools repository",
   ProgressStep.new "Fetch SlackBuilds snapshot"]

/-- `SbotoolsComponent` state (src/components/sbotools.rs lines 20-26).
The progress channel is omitted. -/
structure SbotoolsComponent where
  steps : List ProgressStep
  current_step : Nat
  output_lines : List String
  is_running : Bool
deriving DecidableEq

/-- `SbotoolsComponent::new` (lines 29-44). -/
def SbotoolsComponent.new : SbotoolsComponent :=
  { steps := sbotoolsSteps, current_step := 0, output_lines := [], is_running := false }

/-- `SbotoolsComponent::reset` (lines 46-58). -/
def SbotoolsComponent.reset (_s : SbotoolsComponent) : SbotoolsComponent :=
  SbotoolsComponent.new

/-- `SbotoolsComponent::start_install` (lines 60-64). -/
def SbotoolsComponent.start_install (s : SbotoolsComponent) : SbotoolsComponent :=
  let s := s.reset
  { s with is_running := true, steps := setStepStatus s.steps 0 StepStatus.Running }

/-- `SbotoolsComponent::add_output` (lines 66-68). -/
def SbotoolsComponent.add_output (s : SbotoolsComponent) (line : String) : SbotoolsComponent :=
  { s with output_lines := s.output_lines ++ [line] }

/-- `SbotoolsComponent::step_complete` (lines 70-92).  Unlike the updater,
this engine stops on failure: `if !success { is_running = false; return; }`. -/
def SbotoolsComponent.step_complete (s : SbotoolsComponent) (success : Bool)
    (error : Option String) : SbotoolsComponent :=
  if s.current_step < s.steps.length then
    let recorded := if success then StepStatus.Complete
                    else StepStatus.Failed (error.getD "")
    let s := { s with steps := setStepStatus s.steps s.current_step recorded }
    if !success then
      { s with is_running := false }
    else
      let s := { s with current_step := s.current_step + 1 }
      if s.current_step < s.steps.length then
        { s with steps := setStepStatus s.steps s.current_step StepStatus.Running }
      else
        let s := { s with is_running := false }
        s.add_output "All steps completed successfully!"
  else s

/-- `SbotoolsCommand` (src/components/sbotools.rs lines 127-134). -/
inductive SbotoolsCommand where
  | Download (url filename : String)
  | InstallPkg (path : String)
  | SbopkgSync
  | SbopkgInstall (package : String)
  | SboconfigRepo (url : String)
  | SbosnapFetch
deriving DecidableEq

def SBOPKG_URL : String :=
  "https://github.com/sbopkg/sbopkg/releases/download/0.38.2/sbopkg-0.38.2-noarch-1_wsr.tgz"

def SBOPKG_FILENAME : String := "sbopkg-0.38.2-noarch-1_wsr.tgz"

def SBO_REPO_URL : String := "https://gitlab.com/SlackBuilds.org/slackbuilds.git"

/-- `SbotoolsComponent::get_current_command` (lines 94-117). -/
def SbotoolsComponent.get_current_command (s : SbotoolsComponent) :
    Option SbotoolsCommand :=
  if !s.is_running then none
  else
    match s.current_step with
    | 0 => some (SbotoolsCommand.Download SBOPKG_URL SBOPKG_FILENAME)
    | 1 => some (SbotoolsCommand.InstallPkg ("/tmp/" ++ SBOPKG_FILENAME))
    | 2 => some SbotoolsCommand.SbopkgSync
    | 3 => some (SbotoolsCommand.SbopkgInstall "sbotools")
    | 4 => some (SbotoolsCommand.SboconfigRepo SBO_REPO_URL)
    | 5 => some SbotoolsCommand.SbosnapFetch
    | _ => none

/-! ## Command executor (src/slackware/commands.rs) -/

/-- `CommandResult` (src/slackware/commands.rs lines 7-12). -/
structure CommandResult where
  success : Bool
  stdout : String
  stderr : String
  exit_code : Option Int
deriving DecidableEq

/-- A finished OS process as the executor sees it: exit-status success
flag and code, and the captured output already decoded to text
(`String::from_utf8_lossy`). -/
structure ProcessOutput where
  status_success : Bool
  status_code : Option Int
  stdout : String
  stderr : String
deriving DecidableEq

/-- The outcome of `Command::output().await` in
`CommandExecutor::execute`: either a finished process or a spawn/IO
error carrying its display text. -/
inductive SpawnOutcome where
  | ok (out : ProcessOutput)
  | err (msg : String)
deriving DecidableEq

/-- `CommandExecutor::execute` (lines 47-86) as a function of the spawn
outcome.  The progress channel is omitted.  The function is total: every
failure is translated into a `CommandResult`, never propagated. -/
def CommandExecutor.execute : SpawnOutcome → CommandResult
  | SpawnOutcome.ok out =>
    { success := out.status_success
      stdout := out.stdout
      stderr := out.stderr
      exit_code := out.status_code }
  | SpawnOutcome.err e =>
    { success := false, stdout := "", stderr := e, exit_code := none }

/-- The outcome of the `chpasswd` invocation in
`CommandExecutor::set_password`: the spawn may fail, else the wait may
fail, else a finished process is observed. -/
inductive SetPasswordOutcome where
  | spawnErr (msg : String)
  | waitErr (msg : String)
  | waited (out : ProcessOutput)
deriving DecidableEq

/-- `CommandExecutor::set_password` (lines 170-210) as a function of the
process outcome.  The stdin write is side-effect-only (errors ignored). -/
def CommandExecutor.set_password : SetPasswordOutcome → CommandResult
  | SetPasswordOutcome.spawnErr e =>
    { success := false, stdout := "", stderr := e, exit_code := none }
  | SetPasswordOutcome.waitErr e =>
    { success := false, stdout := "", stderr := e, exit_code := none }
  | SetPasswordOutcome.waited out =>
    { success := out.status_success
      stdout := out.stdout
      stderr := out.stderr
      exit_code := out.status_code }

/-! ## Host application (src/app.rs)

Only the updater-relevant projection of `App` is modelled: the updater
component, the exit-warning flag and the running flag.  The fifteen other
tab components never read or write the updater or the exit-warning state,
and tab navigation only selects which component receives input; the
modelled scenarios keep the Updater tab active, so tab state is elided
and input in the non-blocking case is delegated to the updater. -/

structure App where
  updater : UpdaterComponent
  show_exit_warning : Bool
  running : Bool
deriving DecidableEq

/-- `App::is_showing_exit_warning` (src/app.rs lines 146-148). -/
def App.is_showing_exit_warning (app : App) : Bool :=
  app.show_exit_warning

/-- `App::handle_input` (src/app.rs lines 151-292), restricted to the
Updater tab: the exit-warning dialog branch, the Ctrl+C/Ctrl+Q exit check,
the input-blocking branch during a run, and delegation to the updater. -/
def App.handle_input (app : App) (key : KeyEvent) (fs : FsEnv) :
    App × Option Message :=
  if app.show_exit_warning then
    match key.code with
    | KeyCode.charKey c =>
      if c == 'q' || c == 'Q' then
        ({ app with show_exit_warning := false }, some Message.Quit)
      else if c == 'l' || c == 'L' then
        let app := { app with show_exit_warning := false }
        ({ app with updater := app.updater.confirm_lilo true }, some Message.ContinueUpdate)
      else (app, none)
    | KeyCode.escKey => ({ app with show_exit_warning := false }, none)
    | _ => (app, none)
  else if key.ctrl && (key.code == KeyCode.charKey 'c' || key.code == KeyCode.charKey 'q') then
    if app.updater.was_lilo_skipped && app.updater.was_kernel_updated then
      ({ app with show_exit_warning := true }, none)
    else
      (app, some Message.Quit)
  else
    let r := app.updater.handle_input key.code fs
    ({ app with updater := r.1 }, r.2)

/-- `App::update` (src/app.rs lines 369-463) for the modelled messages:
`Quit` stops the event loop. -/
def App.update_quit (app : App) : App :=
  { app with running := false }

/-- Split a character list at newline characters. -/
def splitNl : List Char → List Char → List String
  | acc, [] => [String.mk acc.reverse]
  | acc, c :: cs =>
    if c = '\n' then String.mk acc.reverse :: splitNl [] cs
    else splitNl (c :: acc) cs

/-- Rust `str::lines()` over captured output (the source never produces
carriage returns or a trailing newline in the modelled scenarios, where
this agrees with splitting on the newline character). -/
def rustLines (s : String) : List String := splitNl [] s.toList

/-- The display loop `for line in ... { add_output(line) }`. -/
def UpdaterComponent.addLines (u : UpdaterComponent) (ls : List String) : UpdaterComponent :=
  ls.foldl UpdaterComponent.add_output u

/-- One iteration of `App::run_update_step` (src/app.rs lines 466-504),
with the executor call replaced by its result `result`: echo the command,
retain at most 10 stdout lines for display, run the kernel scan over the
full stdout when the finished step is step 2 and the result succeeded,
then advance the engine. -/
def App.run_update_step_once (app : App) (result : CommandResult) : App :=
  let current_step := app.updater.current_step
  match app.updater.get_current_command with
  | none => app
  | some (cmd, args) =>
    let upd := app.updater.add_output ("Running: " ++ cmd ++ " " ++ String.intercalate " " args)
    let upd :=
      if !(result.stdout == "") then upd.addLines ((rustLines result.stdout).take 10)
      else upd
    let upd :=
      if current_step == 2 && result.success then
        upd.set_kernel_updated (upd.check_for_kernel_update result.stdout)
      else upd
    let upd := upd.step_complete result.success
      (if result.success then none else some result.stderr)
    { app with updater := upd }

/-- The recursive continuation of `App::run_update_step`: keep executing
while no gate is pending and a command is available, drawing one executor
result per executed action from `results`. -/
def App.run_update_steps : App → List CommandResult → App
  | app, [] => app
  | app, r :: rs =>
    match app.updater.get_current_command with
    | none => app
    | some _ =>
      let app2 := app.run_update_step_once r
      if !app2.updater.needs_lilo_confirm && (app2.updater.get_current_command).isSome then
        app2.run_update_steps rs
      else app2

/-! ## Concrete scenario states for witnesses and counterexamples -/

/-- Filesystem with `/etc/lilo.conf` present. -/
def fsLilo : FsEnv :=
  { etc_lilo_conf := true, boot_grub_grub_cfg := false, etc_default_grub := false }

/-- Filesystem with only `/boot/grub/grub.cfg` present. -/
def fsGrub : FsEnv :=
  { etc_lilo_conf := false, boot_grub_grub_cfg := true, etc_default_grub := false }

/-- Filesystem with none of the probed paths present. -/
def fsNone : FsEnv :=
  { etc_lilo_conf := false, boot_grub_grub_cfg := false, etc_default_grub := false }

/-- A successful executor result with the given stdout. -/
def okRes (out : String) : CommandResult :=
  { success := true, stdout := out, stderr := "", exit_code := some 0 }

/-- A failed executor result with the given stdout and stderr. -/
def failRes (out err : String) : CommandResult :=
  { success := false, stdout := out, stderr := err, exit_code := some 1 }

/-- Step-2 output mentioning a kernel package. -/
def kernelOut : String := "kernel-generic-6.1.0 upgraded"

/-- Step-2 output whose only kernel mention is on the 11th line, past the
10-line display prefix. -/
def kernelOut11 : String := "a\na\na\na\na\na\na\na\na\na\nkernel-huge upgraded"

/-- The host right after the operator starts an update run. -/
def appStarted (fs : FsEnv) : App :=
  { updater := (UpdaterComponent.new fs).start_update fs
    show_exit_warning := false
    running := true }

/-- A freshly started updater engine. -/
def updStarted : UpdaterComponent := (UpdaterComponent.new fsLilo).start_update fsLilo

/-- A freshly started sbotools engine. -/
def sboStarted : SbotoolsComponent := SbotoolsComponent.new.start_install

/-- A LILO run after two successful steps, about to run step 2. -/
def appTwo : App :=
  (appStarted fsLilo).run_update_steps [okRes "", okRes ""]

/-- A no-bootloader run paused before advancing out of step 3. -/
def appThreeNone : App :=
  (appStarted fsNone).run_update_steps [okRes "", okRes "", okRes ""]

/-- A GRUB run paused before advancing out of step 3. -/
def appThreeGrub : App :=
  (appStarted fsGrub).run_update_steps [okRes "", okRes "", okRes ""]

/-- A LILO run with a kernel update, paused before advancing out of
step 3. -/
def appThreeKernel : App :=
  (appStarted fsLilo).run_update_steps [okRes "", okRes "", okRes kernelOut]

/-- A LILO run whose step-2 output reports a kernel upgrade: after four
successes the engine is paused at the mandatory gate. -/
def mandatoryGatedApp : App :=
  (appStarted fsLilo).run_update_steps [okRes "", okRes "", okRes kernelOut, okRes ""]

/-- A LILO run with no kernel change: after four successes the engine is
paused at the optional gate. -/
def optionalGatedApp : App :=
  (appStarted fsLilo).run_update_steps [okRes "", okRes "", okRes "", okRes ""]

/-- A LILO run where step 2 fails with kernel-mentioning stdout. -/
def failKernelApp : App :=
  (appStarted fsLilo).run_update_steps [okRes "", okRes "", failRes kernelOut "upgrade failed", okRes ""]

/-- A LILO run whose step-2 output mentions a kernel only past the
displayed prefix. -/
def deepKernelApp : App :=
  (appStarted fsLilo).run_update_steps [okRes "", okRes "", okRes kernelOut11, okRes ""]

/-- A key press without the control modifier. -/
def ckey (c : Char) : KeyEvent := { code := KeyCode.charKey c, ctrl := false }

/-- A key press with the control modifier held. -/
def ctrlKey (c : Char) : KeyEvent := { code := KeyCode.charKey c, ctrl := true }

/-- Feed a list of key codes to the updater component. -/
def feedKeysU (u : UpdaterComponent) (ks : List KeyCode) : UpdaterComponent :=
  ks.foldl (fun u k => (u.handle_input k fsLilo).1) u

/-- Feed a list of key events to the host. -/
def feedKeysApp (app : App) (ks : List KeyEvent) : App :=
  ks.foldl (fun a k => (a.handle_input k fsLilo).1) app

/-- The mandatory gate declined by typing the bypass keyword. -/
def declinedApp : App :=
  feedKeysApp mandatoryGatedApp [ckey 's', ckey 'k', ckey 'i', ckey 'p']

/-- The declined run after the operator pressed Ctrl+Q: the host
interposes the exit warning. -/
def warnedApp : App := (declinedApp.handle_input (ctrlKey 'q') fsLilo).1

/-- The warned host after the operator pressed L (run lilo now). -/
def reopenedApp : App := (warnedApp.handle_input (ckey 'l') fsLilo).1

/-! ## Helper lemmas -/

theorem setStepStatus_length (l : List ProgressStep) (i : Nat) (st : StepStatus) :
    (setStepStatus l i st).length = l.length := by
  induction l generalizing i with
  | nil => rfl
  | cons s rest ih => cases i <;> simp [setStepStatus, ih]

theorem statusAt_setStepStatus_self (l : List ProgressStep) (i : Nat) (st : StepStatus)
    (h : i < l.length) : statusAt (setStepStatus l i st) i = some st := by
  induction l generalizing i with
  | nil => simp at h
  | cons s rest ih =>
    cases i with
    | zero => simp [setStepStatus, statusAt]
    | succ i =>
      simp only [setStepStatus, statusAt, List.getElem?_cons_succ]
      exact ih i (by simpa using h)

theorem statusAt_setStepStatus_ne (l : List ProgressStep) {i j : Nat} (st : StepStatus)
    (h : i ≠ j) : statusAt (setStepStatus l i st) j = statusAt l j := by
  induction l generalizing i j with
  | nil => cases i <;> rfl
  | cons s rest ih =>
    cases i with
    | zero =>
      cases j with
      | zero => exact absurd rfl h
      | succ j => simp [setStepStatus, statusAt]
    | succ i =>
      cases j with
      | zero => simp [setStepStatus, statusAt]
      | succ j =>
        simp only [setStepStatus, statusAt, List.getElem?_cons_succ]
        exact ih (fun hh => h (by omega))

/-- `UpdaterComponent::step_complete` records the outcome of the finished
step at the index it was called at, whatever happens afterwards. -/
theorem step_complete_records (u : UpdaterComponent) (success : Bool) (error : Option String)
    (h : u.current_step < u.steps.length) :
    statusAt (u.step_complete success error).steps u.current_step =
      some (if success then StepStatus.Complete else StepStatus.Failed (error.getD "")) := by
  unfold UpdaterComponent.step_complete
  rw [if_pos h]
  simp only [UpdaterComponent.add_output]
  repeat' split
  all_goals
    simp_all [statusAt_setStepStatus_ne, statusAt_setStepStatus_self, Nat.succ_ne_self]

/-- `UpdaterComponent::step_complete` always moves `current_step` forward
when called in bounds: the updater engine never halts in place. -/
theorem step_complete_advances (u : UpdaterComponent) (success : Bool) (error : Option String)
    (h : u.current_step < u.steps.length) :
    u.current_step < (u.step_complete success error).current_step := by
  unfold UpdaterComponent.step_complete
  rw [if_pos h]
  simp only [UpdaterComponent.add_output]
  repeat' split
  all_goals simp_all

/-- `step_complete` never rewinds `current_step`. -/
theorem step_complete_le (u : UpdaterComponent) (success : Bool) (error : Option String) :
    u.current_step ≤ (u.step_complete success error).current_step := by
  unfold UpdaterComponent.step_complete
  simp only [UpdaterComponent.add_output]
  repeat' split
  all_goals simp_all

/-- `step_complete` never touches the kernel-updated flag. -/
theorem step_complete_kernel_updated (u : UpdaterComponent) (success : Bool)
    (error : Option String) :
    (u.step_complete success error).kernel_updated = u.kernel_updated := by
  unfold UpdaterComponent.step_complete
  simp only [UpdaterComponent.add_output]
  repeat' split
  all_goals simp_all

/-- `step_complete` never touches the detected bootloader. -/
theorem step_complete_bootloader (u : UpdaterComponent) (success : Bool)
    (error : Option String) :
    (u.step_complete success error).bootloader = u.bootloader := by
  unfold UpdaterComponent.step_complete
  simp only [UpdaterComponent.add_output]
  repeat' split
  all_goals simp_all

/-- The display loop only appends to the output buffer. -/
theorem addLines_eq (u : UpdaterComponent) (ls : List String) :
    u.addLines ls = { u with output_lines := u.output_lines ++ ls } := by
  unfold UpdaterComponent.addLines
  induction ls generalizing u with
  | nil => simp
  | cons l rest ih =>
    rw [List.foldl_cons, ih]
    simp [UpdaterComponent.add_output]

/-- `set_kernel_updated` sets exactly the flag (plus a display line). -/
theorem set_kernel_updated_flag (u : UpdaterComponent) (b : Bool) :
    (u.set_kernel_updated b).kernel_updated = b := by
  unfold UpdaterComponent.set_kernel_updated
  split <;> simp [UpdaterComponent.add_output]

/-- `set_kernel_updated` leaves the position unchanged. -/
theorem set_kernel_updated_current_step (u : UpdaterComponent) (b : Bool) :
    (u.set_kernel_updated b).current_step = u.current_step := by
  unfold UpdaterComponent.set_kernel_updated
  split <;> simp [UpdaterComponent.add_output]

/-- One driver iteration never rewinds the position. -/
theorem run_update_step_once_le (app : App) (r : CommandResult) :
    app.updater.current_step ≤ (app.run_update_step_once r).updater.current_step := by
  unfold App.run_update_step_once
  cases hc : app.updater.get_current_command with
  | none => exact Nat.le_refl _
  | some c =>
    obtain ⟨cmd, args⟩ := c
    simp only []
    split <;> split <;>
      refine Nat.le_trans ?_ (step_complete_le _ _ _) <;>
      simp [addLines_eq, UpdaterComponent.add_output, set_kernel_updated_current_step]

/-- When the finished step is not a successful step 2, one driver
iteration leaves the kernel-updated flag unchanged. -/
theorem run_update_step_once_kernel_frozen (app : App) (r : CommandResult)
    (h : (app.updater.current_step == 2 && r.success) = false) :
    (app.run_update_step_once r).updater.kernel_updated = app.updater.kernel_updated := by
  unfold App.run_update_step_once
  cases hc : app.updater.get_current_command with
  | none => rfl
  | some c =>
    obtain ⟨cmd, args⟩ := c
    simp only [h]
    repeat' split
    all_goals
      simp_all [addLines_eq, UpdaterComponent.add_output, step_complete_kernel_updated]

/-! ## Claim theorems -/

/-- C1 counterexample: the OS-upgrade engine does not halt on failure.
Starting a run and advancing with a failed result (stderr "boom") at step
0, the claim says `current_index` stays 0 and `current_action()` is none;
in fact `current_step` becomes 1, step 1 is marked Running, and
`get_current_command` returns step 1's command. -/
theorem C1_ce :
    ¬((updStarted.step_complete false (some "boom")).current_step = 0 ∧
      (updStarted.step_complete false (some "boom")).get_current_command = none) ∧
    (updStarted.step_complete false (some "boom")).current_step = 1 ∧
    statusAt (updStarted.step_complete false (some "boom")).steps 0 =
      some (StepStatus.Failed "boom") ∧
    statusAt (updStarted.step_complete false (some "boom")).steps 1 =
      some StepStatus.Running ∧
    (updStarted.step_complete false (some "boom")).get_current_command =
      some ("slackpkg", ["install-new"]) ∧
    (updStarted.step_complete false (some "boom")).is_running = true := by
  decide

/-- C1 amended: on a failed result the sbotools-bootstrap engine behaves
as the claim states (step i marked Failed with the stderr text,
`current_step` unchanged, run halted, no further command); the OS-upgrade
engine marks step i Failed with the stderr text but does not halt:
`current_step` strictly increases and the run continues. -/
theorem C1_amended :
    (∀ (s : SbotoolsComponent) (err : String),
        s.current_step < s.steps.length →
        statusAt (s.step_complete false (some err)).steps s.current_step =
            some (StepStatus.Failed err) ∧
        (s.step_complete false (some err)).current_step = s.current_step ∧
        (s.step_complete false (some err)).is_running = false ∧
        (s.step_complete false (some err)).get_current_command = none) ∧
    (∀ (u : UpdaterComponent) (err : String),
        u.current_step < u.steps.length →
        statusAt (u.step_complete false (some err)).steps u.current_step =
            some (StepStatus.Failed err) ∧
        u.current_step < (u.step_complete false (some err)).current_step) := by
  constructor
  · intro s err h
    have hself := statusAt_setStepStatus_self s.steps s.current_step (StepStatus.Failed err) h
    refine ⟨?_, ?_, ?_, ?_⟩ <;>
      simp [SbotoolsComponent.step_complete, SbotoolsComponent.get_current_command, h, hself]
  · intro u err h
    refine ⟨?_, step_complete_advances u false (some err) h⟩
    simpa using step_complete_records u false (some err) h

/-- C1 witness: the amended claim applied to the freshly started engines
with concrete stderr texts. -/
theorem C1_amended_witness :
    (sboStarted.current_step < sboStarted.steps.length ∧
      (statusAt (sboStarted.step_complete false (some "no network")).steps sboStarted.current_step =
          some (StepStatus.Failed "no network") ∧
        (sboStarted.step_complete false (some "no network")).current_step = sboStarted.current_step ∧
        (sboStarted.step_complete false (some "no network")).is_running = false ∧
        (sboStarted.step_complete false (some "no network")).get_current_command = none)) ∧
    (updStarted.current_step < updStarted.steps.length ∧
      (statusAt (updStarted.step_complete false (some "oops")).steps updStarted.current_step =
          some (StepStatus.Failed "oops") ∧
        updStarted.current_step < (updStarted.step_complete false (some "oops")).current_step)) :=
  ⟨⟨by decide, C1_amended.1 sboStarted "no network" (by decide)⟩,
   ⟨by decide, C1_amended.2 updStarted "oops" (by decide)⟩⟩

/-- C2: while the mandatory gate is pending, a non-affirmative character
is matched incrementally and case-insensitively against the 4-character
bypass keyword (appended on match, buffer reset to empty on mismatch);
backspace removes the last buffered character; escape clears the buffer
without resolving the gate; completing the keyword resolves the gate as
declined with the risk-present message and `gate_declined` set; and the
concrete S,K,I,X then S,K,I,P scenario behaves as claimed. -/
theorem C2_mandatory_gate_input :
    (∀ (u : UpdaterComponent) (c : Char) (fs : FsEnv),
        u.show_summary = false → u.show_lilo_confirm = true → u.kernel_updated = true →
        (c == 'y') = false → (c == 'Y') = false →
        ((u.skip_input.length < 4 ∧ c.toUpper = skipExpected.getD u.skip_input.length ' ') →
            ((u.handle_input (KeyCode.charKey c) fs).1).skip_input =
              u.skip_input.push c.toUpper) ∧
        (¬(u.skip_input.length < 4 ∧ c.toUpper = skipExpected.getD u.skip_input.length ' ') →
            ((u.handle_input (KeyCode.charKey c) fs).1).skip_input = "")) ∧
    (∀ (u : UpdaterComponent) (fs : FsEnv),
        u.show_summary = false → u.show_lilo_confirm = true → u.kernel_updated = true →
        ((u.handle_input KeyCode.backspaceKey fs).1).skip_input = u.skip_input.dropRight 1 ∧
        ((u.handle_input KeyCode.backspaceKey fs).1).show_lilo_confirm = true) ∧
    (∀ (u : UpdaterComponent) (fs : FsEnv),
        u.show_summary = false → u.show_lilo_confirm = true → u.kernel_updated = true →
        ((u.handle_input KeyCode.escKey fs).1).skip_input = "" ∧
        ((u.handle_input KeyCode.escKey fs).1).show_lilo_confirm = true ∧
        ((u.handle_input KeyCode.escKey fs).1).lilo_skipped = u.lilo_skipped) ∧
    (∀ (u : UpdaterComponent) (fs : FsEnv),
        u.show_summary = false → u.show_lilo_confirm = true → u.kernel_updated = true →
        u.skip_input = "SKI" → u.current_step < u.steps.length →
        ((u.handle_input (KeyCode.charKey 'p') fs).1).show_lilo_confirm = false ∧
        ((u.handle_input (KeyCode.charKey 'p') fs).1).lilo_skipped = true ∧
        statusAt ((u.handle_input (KeyCode.charKey 'p') fs).1).steps u.current_step =
          some (StepStatus.Failed "SKIPPED - KERNEL WAS UPDATED!") ∧
        ((u.handle_input (KeyCode.charKey 'p') fs).1).is_running = false ∧
        ((u.handle_input (KeyCode.charKey 'p') fs).1).run_outcome.gate_declined = true) ∧
    ((feedKeysU mandatoryGatedApp.updater
        [KeyCode.charKey 'S', KeyCode.charKey 'K', KeyCode.charKey 'I',
         KeyCode.charKey 'X']).skip_input = "" ∧
      (feedKeysU mandatoryGatedApp.updater
        [KeyCode.charKey 'S', KeyCode.charKey 'K', KeyCode.charKey 'I',
         KeyCode.charKey 'X']).show_lilo_confirm = true ∧
      (feedKeysU mandatoryGatedApp.updater
        [KeyCode.charKey 'S', KeyCode.charKey 'K', KeyCode.charKey 'I', KeyCode.charKey 'X',
         KeyCode.charKey 'S', KeyCode.charKey 'K', KeyCode.charKey 'I',
         KeyCode.charKey 'P']).show_lilo_confirm = false ∧
      (feedKeysU mandatoryGatedApp.updater
        [KeyCode.charKey 'S', KeyCode.charKey 'K', KeyCode.charKey 'I', KeyCode.charKey 'X',
         KeyCode.charKey 'S', KeyCode.charKey 'K', KeyCode.charKey 'I',
         KeyCode.charKey 'P']).run_outcome =
        { gate_declined := true, risk_flag := true }) := by
  refine ⟨?_, ?_, ?_, ?_, by decide⟩
  · intro u c fs h1 h2 h3 hy hY
    constructor
    · intro hm
      simp only [UpdaterComponent.handle_input, UpdaterComponent.mandatory_gate_input,
        h1, h2, h3, hy, hY, Bool.false_eq_true, if_false, if_true, Bool.or_self, if_pos hm]
      split <;> simp [UpdaterComponent.confirm_lilo]
    · intro hm
      simp only [UpdaterComponent.handle_input, UpdaterComponent.mandatory_gate_input,
        h1, h2, h3, hy, hY, Bool.false_eq_true, if_false, if_true, Bool.or_self, if_neg hm]
  · intro u fs h1 h2 h3
    constructor <;>
      simp [UpdaterComponent.handle_input, UpdaterComponent.mandatory_gate_input, h1, h2, h3]
  · intro u fs h1 h2 h3
    refine ⟨?_, ?_, ?_⟩ <;>
      simp [UpdaterComponent.handle_input, UpdaterComponent.mandatory_gate_input, h1, h2, h3]
  · intro u fs h1 h2 h3 hski hlen
    have hcond : ("SKI" : String).length < 4 ∧ ('p'.toUpper) = skipExpected.getD ("SKI" : String).length ' ' := by
      decide
    have hpush : (("SKI" : String).push ('p'.toUpper) == "SKIP") = true := by decide
    simp only [UpdaterComponent.handle_input, UpdaterComponent.mandatory_gate_input,
      h1, h2, h3, hski, Bool.false_eq_true, if_false, if_true, if_pos hcond, hpush]
    simp only [UpdaterComponent.confirm_lilo, UpdaterComponent.run_outcome,
      UpdaterComponent.was_lilo_skipped, h3]
    refine ⟨by simp, by simp, ?_, by simp, by simp⟩
    simpa using statusAt_setStepStatus_self u.steps u.current_step
      (StepStatus.Failed "SKIPPED - KERNEL WAS UPDATED!") hlen

/-- C2 witness: the general parts applied at the concrete mandatory-gate
state reached in `mandatoryGatedApp`, with matching input K after S,
mismatching input Z, a backspace and an escape. -/
theorem C2_mandatory_gate_input_witness :
    ((feedKeysU mandatoryGatedApp.updater [KeyCode.charKey 's']).skip_input.length < 4 ∧
      (feedKeysU mandatoryGatedApp.updater
          [KeyCode.charKey 's', KeyCode.charKey 'k']).skip_input = "SK") ∧
    (feedKeysU mandatoryGatedApp.updater
        [KeyCode.charKey 's', KeyCode.charKey 'z']).skip_input = "" ∧
    (feedKeysU mandatoryGatedApp.updater
        [KeyCode.charKey 's', KeyCode.backspaceKey]).skip_input = ("S" : String).dropRight 1 ∧
    (feedKeysU mandatoryGatedApp.updater
        [KeyCode.charKey 's', KeyCode.escKey]).skip_input = "" ∧
    (feedKeysU mandatoryGatedApp.updater
        [KeyCode.charKey 's', KeyCode.escKey]).show_lilo_confirm = true := by
  have hu := mandatoryGatedApp.updater
  have h1 : (feedKeysU mandatoryGatedApp.updater [KeyCode.charKey 's']).show_summary = false := by decide
  have h2 : (feedKeysU mandatoryGatedApp.updater [KeyCode.charKey 's']).show_lilo_confirm = true := by decide
  have h3 : (feedKeysU mandatoryGatedApp.updater [KeyCode.charKey 's']).kernel_updated = true := by decide
  have hk := (C2_mandatory_gate_input.1 (feedKeysU mandatoryGatedApp.updater [KeyCode.charKey 's'])
      'k' fsLilo h1 h2 h3 (by decide) (by decide)).1 (by decide)
  have hz := (C2_mandatory_gate_input.1 (feedKeysU mandatoryGatedApp.updater [KeyCode.charKey 's'])
      'z' fsLilo h1 h2 h3 (by decide) (by decide)).2 (by decide)
  have hb := (C2_mandatory_gate_input.2.1 (feedKeysU mandatoryGatedApp.updater [KeyCode.charKey 's'])
      fsLilo h1 h2 h3).1
  have he := C2_mandatory_gate_input.2.2.1 (feedKeysU mandatoryGatedApp.updater [KeyCode.charKey 's'])
      fsLilo h1 h2 h3
  refine ⟨⟨by decide, ?_⟩, ?_, ?_, ?_, ?_⟩
  · simpa [feedKeysU] using hk
  · simpa [feedKeysU] using hz
  · simpa [feedKeysU] using hb
  · simpa [feedKeysU] using he.1
  · simpa [feedKeysU] using he.2.1

/-- C3 counterexample: the Risk Detector is not run for failed results.
In `failKernelApp` the step-2 result fails with a stdout containing
"kernel-generic"; the claim says RiskFlag is set for failed and successful
results alike, but `kernel_updated` stays false (the scan is guarded by
`result.success` in `App::run_update_step`, src/app.rs line 485). -/
theorem C3_ce :
    strContains kernelOut "kernel-generic" = true ∧
    statusAt failKernelApp.updater.steps 2 = some (StepStatus.Failed "upgrade failed") ∧
    failKernelApp.updater.kernel_updated = false ∧
    ¬failKernelApp.updater.kernel_updated = true := by
  decide

/-- C3 amended: the Risk Detector runs over the full, untruncated stdout
only when the step-2 result is successful: (1) on a successful step-2
result the flag becomes exactly the scan of the whole stdout; (2) a failed
result never changes the flag; (3) once set (position past step 2) the
flag stays set for the remainder of the run; (4) the scan sees text beyond
the 10-line display prefix. -/
theorem C3_amended :
    (∀ (app : App) (r : CommandResult),
        app.updater.current_step = 2 → app.updater.is_running = true → r.success = true →
        (app.run_update_step_once r).updater.kernel_updated =
          app.updater.check_for_kernel_update r.stdout) ∧
    (∀ (app : App) (r : CommandResult), r.success = false →
        (app.run_update_step_once r).updater.kernel_updated =
          app.updater.kernel_updated) ∧
    (∀ (app : App) (results : List CommandResult),
        app.updater.kernel_updated = true → 3 ≤ app.updater.current_step →
        (app.run_update_steps results).updater.kernel_updated = true) ∧
    (deepKernelApp.updater.kernel_updated = true ∧
      ((rustLines kernelOut11).take 10).all (fun l => !(strContains l "kernel-huge")) = true) := by
  refine ⟨?_, ?_, ?_, by decide⟩
  · intro app r h2 hr hs
    have hc : app.updater.get_current_command = some ("slackpkg", ["upgrade-all"]) := by
      unfold UpdaterComponent.get_current_command
      rw [hr, h2]
      simp
    unfold App.run_update_step_once
    rw [hc]
    simp only [h2, hs]
    have hscan : ((2 : Nat) == 2 && true) = true := by decide
    rw [hscan]
    simp only [if_true]
    split <;>
      simp [addLines_eq, UpdaterComponent.add_output, step_complete_kernel_updated,
        set_kernel_updated_flag, UpdaterComponent.check_for_kernel_update]
  · intro app r hs
    exact run_update_step_once_kernel_frozen app r (by simp [hs])
  · intro app results hk h3
    induction results generalizing app with
    | nil => simpa [App.run_update_steps] using hk
    | cons r rs ih =>
      unfold App.run_update_steps
      cases hc : app.updater.get_current_command with
      | none => simpa using hk
      | some c =>
        have hfrozen : (app.run_update_step_once r).updater.kernel_updated = true := by
          rw [run_update_step_once_kernel_frozen app r ?_]
          · exact hk
          · have : (app.updater.current_step == 2) = false := by
              simp only [beq_eq_false_iff_ne]
              omega
            simp [this]
        have h3f : 3 ≤ (app.run_update_step_once r).updater.current_step :=
          Nat.le_trans h3 (run_update_step_once_le app r)
        simp only []
        split
        · exact ih _ hfrozen h3f
        · exact hfrozen

/-- C3 witness: the amended claim applied at concrete runs: a successful
kernel-mentioning step-2 result, a failed one, and a continuation after
the flag is set. -/
theorem C3_amended_witness :
    (appTwo.updater.current_step = 2 ∧ appTwo.updater.is_running = true ∧
      (okRes kernelOut).success = true ∧
      (appTwo.run_update_step_once (okRes kernelOut)).updater.kernel_updated =
        appTwo.updater.check_for_kernel_update (okRes kernelOut).stdout) ∧
    ((failRes kernelOut "upgrade failed").success = false ∧
      (appTwo.run_update_step_once (failRes kernelOut "upgrade failed")).updater.kernel_updated =
        appTwo.updater.kernel_updated) ∧
    (mandatoryGatedApp.updater.kernel_updated = true ∧
      3 ≤ mandatoryGatedApp.updater.current_step ∧
      (mandatoryGatedApp.run_update_steps [okRes ""]).updater.kernel_updated = true) :=
  ⟨⟨by decide, by decide, by decide,
      C3_amended.1 appTwo (okRes kernelOut) (by decide) (by decide) (by decide)⟩,
   ⟨by decide, C3_amended.2.1 appTwo (failRes kernelOut "upgrade failed") (by decide)⟩,
   ⟨by decide, by decide,
      C3_amended.2.2.1 mandatoryGatedApp [okRes ""] (by decide) (by decide)⟩⟩

/-- C4: when `advance` moves the position onto the bootloader step
(index 4), the engine dispatches on the environment detected at run
start: Unknown marks the step Failed with a descriptive note, appends a
warning, increments past it and terminates the run as complete without
entering the gate; GRUB marks it Complete with an informational note and
terminates likewise; LILO (not yet confirmed) opens the gate —
Mandatory if the risk flag is set, Optional otherwise — and
`current_action()` is none until it resolves. -/
theorem C4_gate_dispatch :
    ∀ (u : UpdaterComponent) (success : Bool) (err : Option String),
      u.steps.length = 5 → u.current_step = 3 → u.show_lilo_confirm = false →
      (u.bootloader = Bootloader.Unknown →
          statusAt (u.step_complete success err).steps 4 =
            some (StepStatus.Failed "No bootloader detected") ∧
          (u.step_complete success err).output_lines =
            u.output_lines ++ [unknownBootloaderNote] ∧
          (u.step_complete success err).current_step = 5 ∧
          (u.step_complete success err).is_running = false ∧
          (u.step_complete success err).show_summary = true ∧
          (u.step_complete success err).show_lilo_confirm = false ∧
          (u.step_complete success err).get_current_command = none) ∧
      (u.bootloader = Bootloader.Grub →
          statusAt (u.step_complete success err).steps 4 = some StepStatus.Complete ∧
          (u.step_complete success err).output_lines = u.output_lines ++ [grubSkipNote] ∧
          (u.step_complete success err).current_step = 5 ∧
          (u.step_complete success err).is_running = false ∧
          (u.step_complete success err).show_summary = true ∧
          (u.step_complete success err).show_lilo_confirm = false ∧
          (u.step_complete success err).get_current_command = none) ∧
      (u.bootloader = Bootloader.Lilo → u.lilo_confirmed = false →
          (u.step_complete success err).show_lilo_confirm = true ∧
          (u.step_complete success err).skip_input = "" ∧
          (u.step_complete success err).current_step = 4 ∧
          (u.step_complete success err).get_current_command = none ∧
          (u.step_complete success err).kernel_updated = u.kernel_updated ∧
          (u.kernel_updated = true →
            (u.step_complete success err).gate_mode = GateMode.Mandatory) ∧
          (u.kernel_updated = false →
            (u.step_complete success err).gate_mode = GateMode.Optional)) := by
  intro u success err h5 h3 hslc
  have hlt : u.current_step < u.steps.length := by omega
  refine ⟨?_, ?_, ?_⟩
  · intro hb
    unfold UpdaterComponent.step_complete
    rw [if_pos hlt]
    simp [UpdaterComponent.add_output, UpdaterComponent.get_current_command, h3, h5, hb,
      hslc, setStepStatus_length, statusAt_setStepStatus_self, statusAt_setStepStatus_ne]
  · intro hb
    unfold UpdaterComponent.step_complete
    rw [if_pos hlt]
    simp [UpdaterComponent.add_output, UpdaterComponent.get_current_command, h3, h5, hb,
      hslc, setStepStatus_length, statusAt_setStepStatus_self, statusAt_setStepStatus_ne]
  · intro hb hlc
    have hk := step_complete_kernel_updated u success err
    constructor
    · unfold UpdaterComponent.step_complete
      rw [if_pos hlt]
      simp [h3, h5, hb, hlc, setStepStatus_length]
    refine ⟨?_, ?_, ?_, hk, ?_, ?_⟩ <;>
      [skip; skip; skip;
       (intro hku; simp [UpdaterComponent.gate_mode, hk, hku]);
       (intro hku; simp [UpdaterComponent.gate_mode, hk, hku])] <;>
      (unfold UpdaterComponent.step_complete
       rw [if_pos hlt]
       simp [UpdaterComponent.get_current_command, h3, h5, hb, hlc, setStepStatus_length])

/-- C4 witness: the dispatch applied at concrete runs paused before
step 3's advance under each detected environment. -/
theorem C4_gate_dispatch_witness :
    (appThreeNone.updater.steps.length = 5 ∧ appThreeNone.updater.current_step = 3 ∧
      appThreeNone.updater.show_lilo_confirm = false ∧
      appThreeNone.updater.bootloader = Bootloader.Unknown ∧
      statusAt (appThreeNone.updater.step_complete true none).steps 4 =
        some (StepStatus.Failed "No bootloader detected") ∧
      (appThreeNone.updater.step_complete true none).current_step = 5 ∧
      (appThreeNone.updater.step_complete true none).show_summary = true ∧
      (appThreeNone.updater.step_complete true none).show_lilo_confirm = false) ∧
    (appThreeGrub.updater.bootloader = Bootloader.Grub ∧
      statusAt (appThreeGrub.updater.step_complete true none).steps 4 =
        some StepStatus.Complete ∧
      (appThreeGrub.updater.step_complete true none).current_step = 5 ∧
      (appThreeGrub.updater.step_complete true none).show_summary = true) ∧
    (appThreeKernel.updater.bootloader = Bootloader.Lilo ∧
      appThreeKernel.updater.kernel_updated = true ∧
      (appThreeKernel.updater.step_complete true none).show_lilo_confirm = true ∧
      (appThreeKernel.updater.step_complete true none).gate_mode = GateMode.Mandatory ∧
      (appThreeKernel.updater.step_complete true none).get_current_command = none) := by
  have h1 := C4_gate_dispatch appThreeNone.updater true none
    (by decide) (by decide) (by decide)
  have h2 := C4_gate_dispatch appThreeGrub.updater true none
    (by decide) (by decide) (by decide)
  have h3 := C4_gate_dispatch appThreeKernel.updater true none
    (by decide) (by decide) (by decide)
  have c1 := h1.1 (by decide)
  have c2 := h2.2.1 (by decide)
  have c3 := h3.2.2 (by decide) (by decide)
  exact ⟨⟨by decide, by decide, by decide, by decide, c1.1, c1.2.2.1, c1.2.2.2.2.1,
           c1.2.2.2.2.2.1⟩,
         ⟨by decide, c2.1, c2.2.2.1, c2.2.2.2.2.1⟩,
         ⟨by decide, by decide, c3.1, c3.2.2.2.2.2.1 (by decide), c3.2.2.2.1⟩⟩

/-- C5: on Ctrl+C/Ctrl+Q, the host interposes the exit-warning dialog and
emits no Quit message exactly when `gate_declined ∧ risk_flag`; when the
conjunction is false the quit message is emitted immediately and the state
is untouched. -/
theorem C5_exit_warning :
    ∀ (app : App) (c : Char) (fs : FsEnv),
      app.show_exit_warning = false → (c = 'c' ∨ c = 'q') →
      (((app.updater.run_outcome.gate_declined && app.updater.run_outcome.risk_flag) = true →
          ((app.handle_input { code := KeyCode.charKey c, ctrl := true } fs).1).show_exit_warning
              = true ∧
          (app.handle_input { code := KeyCode.charKey c, ctrl := true } fs).2 = none) ∧
       ((app.updater.run_outcome.gate_declined && app.updater.run_outcome.risk_flag) = false →
          (app.handle_input { code := KeyCode.charKey c, ctrl := true } fs).2
              = some Message.Quit ∧
          (app.handle_input { code := KeyCode.charKey c, ctrl := true } fs).1 = app)) := by
  intro app c fs hwarn hc
  constructor
  · intro hcond
    have hcond' : (app.updater.lilo_skipped && app.updater.kernel_updated) = true := hcond
    rcases hc with hc | hc <;> subst hc <;>
      simp [App.handle_input, UpdaterComponent.was_lilo_skipped,
        UpdaterComponent.was_kernel_updated, hwarn, hcond']
  · intro hcond
    have hcond' : (app.updater.lilo_skipped && app.updater.kernel_updated) = false := hcond
    rcases hc with hc | hc <;> subst hc <;>
      simp [App.handle_input, UpdaterComponent.was_lilo_skipped,
        UpdaterComponent.was_kernel_updated, hwarn, hcond']

/-- C5 witness: the exit check applied at the declined risky run (warns)
and at a fresh run (quits immediately). -/
theorem C5_exit_warning_witness :
    (declinedApp.show_exit_warning = false ∧
      (declinedApp.updater.run_outcome.gate_declined &&
        declinedApp.updater.run_outcome.risk_flag) = true ∧
      ((declinedApp.handle_input { code := KeyCode.charKey 'q', ctrl := true } fsLilo).1).show_exit_warning = true ∧
      (declinedApp.handle_input { code := KeyCode.charKey 'q', ctrl := true } fsLilo).2 = none) ∧
    ((appStarted fsLilo).show_exit_warning = false ∧
      ((appStarted fsLilo).updater.run_outcome.gate_declined &&
        (appStarted fsLilo).updater.run_outcome.risk_flag) = false ∧
      ((appStarted fsLilo).handle_input { code := KeyCode.charKey 'q', ctrl := true } fsLilo).2 =
        some Message.Quit) := by
  have h1 := (C5_exit_warning declinedApp 'q' fsLilo (by decide) (Or.inr rfl)).1 (by decide)
  have h2 := (C5_exit_warning (appStarted fsLilo) 'q' fsLilo (by decide) (Or.inr rfl)).2 (by decide)
  exact ⟨⟨by decide, by decide, h1.1, h1.2⟩, ⟨by decide, by decide, h2.1⟩⟩

/-- C6: in the optional gate a negative answer resolves the gate: the
step is marked Failed("Skipped by user"), `gate_declined` becomes true
while `risk_flag` stays false, the run terminates, and no further command
is produced. -/
theorem C6_optional_decline :
    ∀ (u : UpdaterComponent) (c : Char) (fs : FsEnv),
      u.show_summary = false → u.show_lilo_confirm = true → u.kernel_updated = false →
      u.current_step < u.steps.length → (c = 'n' ∨ c = 'N') →
      ((u.handle_input (KeyCode.charKey c) fs).1).show_lilo_confirm = false ∧
      ((u.handle_input (KeyCode.charKey c) fs).1).lilo_skipped = true ∧
      statusAt ((u.handle_input (KeyCode.charKey c) fs).1).steps u.current_step =
        some (StepStatus.Failed "Skipped by user") ∧
      ((u.handle_input (KeyCode.charKey c) fs).1).is_running = false ∧
      ((u.handle_input (KeyCode.charKey c) fs).1).show_summary = true ∧
      ((u.handle_input (KeyCode.charKey c) fs).1).get_current_command = none ∧
      ((u.handle_input (KeyCode.charKey c) fs).1).run_outcome =
        { gate_declined := true, risk_flag := false } ∧
      (u.handle_input (KeyCode.charKey c) fs).2 = none := by
  intro u c fs h1 h2 h3 hlen hc
  have hself := statusAt_setStepStatus_self u.steps u.current_step
    (StepStatus.Failed "Skipped by user") hlen
  rcases hc with hc | hc <;> subst hc <;>
    refine ⟨?_, ?_, ?_, ?_, ?_, ?_, ?_, ?_⟩ <;>
    simp [UpdaterComponent.handle_input, UpdaterComponent.optional_gate_input,
      UpdaterComponent.confirm_lilo, UpdaterComponent.get_current_command,
      UpdaterComponent.run_outcome, UpdaterComponent.was_lilo_skipped,
      UpdaterComponent.was_kernel_updated, h1, h2, h3, hself]

/-- C6 witness: the optional-gate decline applied at the concrete
optional-gate run with input N. -/
theorem C6_optional_decline_witness :
    (optionalGatedApp.updater.show_summary = false ∧
      optionalGatedApp.updater.show_lilo_confirm = true ∧
      optionalGatedApp.updater.kernel_updated = false ∧
      optionalGatedApp.updater.current_step < optionalGatedApp.updater.steps.length) ∧
    ((optionalGatedApp.updater.handle_input (KeyCode.charKey 'n') fsLilo).1).show_lilo_confirm
        = false ∧
    statusAt ((optionalGatedApp.updater.handle_input (KeyCode.charKey 'n') fsLilo).1).steps
        optionalGatedApp.updater.current_step = some (StepStatus.Failed "Skipped by user") ∧
    ((optionalGatedApp.updater.handle_input (KeyCode.charKey 'n') fsLilo).1).get_current_command
        = none ∧
    ((optionalGatedApp.updater.handle_input (KeyCode.charKey 'n') fsLilo).1).run_outcome =
      { gate_declined := true, risk_flag := false } := by
  have h := C6_optional_decline optionalGatedApp.updater 'n' fsLilo
    (by decide) (by decide) (by decide) (by decide) (Or.inl rfl)
  exact ⟨⟨by decide, by decide, by decide, by decide⟩, h.1, h.2.2.1, h.2.2.2.2.2.1,
    h.2.2.2.2.2.2.1⟩

/-- C7 counterexample: a Failed step is changed again within the same
run.  After the mandatory gate is declined (step 4 Failed), Ctrl+Q opens
the exit warning without touching the engine, and the warning's L key
calls `confirm_lilo(true)` (src/app.rs line 165), re-marking the Failed
gate step as Running — with no `start()`/reset in between. -/
theorem C7_ce :
    statusAt declinedApp.updater.steps 4 =
      some (StepStatus.Failed "SKIPPED - KERNEL WAS UPDATED!") ∧
    warnedApp.updater = declinedApp.updater ∧
    warnedApp.show_exit_warning = true ∧
    reopenedApp.updater.current_step = 4 ∧
    statusAt reopenedApp.updater.steps 4 = some StepStatus.Running ∧
    ¬statusAt reopenedApp.updater.steps 4 =
        some (StepStatus.Failed "SKIPPED - KERNEL WAS UPDATED!") := by
  decide

/-- C7 amended: a step the engine has moved past (index strictly below
`current_step`) is never restatused by `advance` or by gate input; the
gate step itself, marked Failed on decline while `current_step` still
addresses it, is the exception: the host's exit-warning L action re-marks
exactly that step Running. -/
theorem C7_amended :
    (∀ (u : UpdaterComponent) (success : Bool) (err : Option String) (j : Nat),
        j < u.current_step →
        statusAt (u.step_complete success err).steps j = statusAt u.steps j) ∧
    (∀ (u : UpdaterComponent) (confirmed : Bool) (j : Nat),
        j ≠ u.current_step →
        statusAt (u.confirm_lilo confirmed).steps j = statusAt u.steps j) ∧
    (∀ (u : UpdaterComponent) (key : KeyCode) (fs : FsEnv) (j : Nat),
        u.show_summary = false → u.show_lilo_confirm = true → j ≠ u.current_step →
        statusAt ((u.handle_input key fs).1).steps j = statusAt u.steps j) ∧
    (∀ (app : App) (fs : FsEnv),
        app.show_exit_warning = true →
        app.updater.current_step < app.updater.steps.length →
        statusAt ((app.handle_input { code := KeyCode.charKey 'l', ctrl := false } fs).1).updater.steps
            app.updater.current_step = some StepStatus.Running) := by
  have hconf : ∀ (u : UpdaterComponent) (confirmed : Bool) (j : Nat), j ≠ u.current_step →
      statusAt (u.confirm_lilo confirmed).steps j = statusAt u.steps j := by
    intro u confirmed j hj
    have hne : u.current_step ≠ j := Ne.symm hj
    unfold UpdaterComponent.confirm_lilo
    repeat' split
    all_goals simp_all [statusAt_setStepStatus_ne]
  refine ⟨?_, hconf, ?_, ?_⟩
  · intro u success err j hj
    have hj1 : u.current_step ≠ j := by omega
    have hj2 : u.current_step + 1 ≠ j := by omega
    unfold UpdaterComponent.step_complete
    simp only [UpdaterComponent.add_output]
    repeat' split
    all_goals simp_all [statusAt_setStepStatus_ne]
  · intro u key fs j h1 h2 hj
    unfold UpdaterComponent.handle_input
    simp only [h1, h2, Bool.false_eq_true, if_false, if_true]
    split
    · unfold UpdaterComponent.mandatory_gate_input
      cases key
      case charKey c =>
        try dsimp only
        repeat' split
        all_goals simp_all [hconf]
      all_goals simp
    · unfold UpdaterComponent.optional_gate_input
      cases key
      case charKey c =>
        repeat' split
        all_goals simp_all [hconf]
      case escKey => exact hconf _ _ _ hj
      all_goals simp
  · intro app fs hwarn hlen
    simp [App.handle_input, hwarn, UpdaterComponent.confirm_lilo,
      statusAt_setStepStatus_self, hlen]

/-- C7 witness: preservation applied at the concrete gated run (past
steps under advance, gate input and confirm), and the documented L-key
exception at the warned host. -/
theorem C7_amended_witness :
    (1 < mandatoryGatedApp.updater.current_step ∧
      statusAt (mandatoryGatedApp.updater.step_complete true none).steps 1 =
        statusAt mandatoryGatedApp.updater.steps 1) ∧
    ((0 : Nat) ≠ mandatoryGatedApp.updater.current_step ∧
      statusAt (mandatoryGatedApp.updater.confirm_lilo false).steps 0 =
        statusAt mandatoryGatedApp.updater.steps 0) ∧
    (mandatoryGatedApp.updater.show_summary = false ∧
      mandatoryGatedApp.updater.show_lilo_confirm = true ∧
      (2 : Nat) ≠ mandatoryGatedApp.updater.current_step ∧
      statusAt ((mandatoryGatedApp.updater.handle_input (KeyCode.charKey 's') fsLilo).1).steps 2 =
        statusAt mandatoryGatedApp.updater.steps 2) ∧
    (warnedApp.show_exit_warning = true ∧
      warnedApp.updater.current_step < warnedApp.updater.steps.length ∧
      statusAt ((warnedApp.handle_input { code := KeyCode.charKey 'l', ctrl := false } fsLilo).1).updater.steps
          warnedApp.updater.current_step = some StepStatus.Running) :=
  ⟨⟨by decide, C7_amended.1 mandatoryGatedApp.updater true none 1 (by decide)⟩,
   ⟨by decide, C7_amended.2.1 mandatoryGatedApp.updater false 0 (by decide)⟩,
   ⟨by decide, by decide, by decide,
     C7_amended.2.2.1 mandatoryGatedApp.updater (KeyCode.charKey 's') fsLilo 2
       (by decide) (by decide) (by decide)⟩,
   ⟨by decide, by decide, C7_amended.2.2.2 warnedApp fsLilo (by decide) (by decide)⟩⟩

/-- C8: the environment classifier is a pure function of the existence
of a fixed set of paths, first recognized marker winning (LILO before
GRUB, else Unknown); it is computed at construction, refreshed by
reset/restart, and left untouched by the engine's transitions. -/
theorem C8_env_classifier :
    (∀ fs : FsEnv,
        (Bootloader.detect fs = Bootloader.Lilo ↔ fs.etc_lilo_conf = true) ∧
        (Bootloader.detect fs = Bootloader.Grub ↔
          (fs.etc_lilo_conf = false ∧
            (fs.boot_grub_grub_cfg = true ∨ fs.etc_default_grub = true))) ∧
        (Bootloader.detect fs = Bootloader.Unknown ↔
          (fs.etc_lilo_conf = false ∧ fs.boot_grub_grub_cfg = false ∧
            fs.etc_default_grub = false))) ∧
    (∀ (u : UpdaterComponent) (fs : FsEnv), (u.reset fs).bootloader = Bootloader.detect fs) ∧
    (∀ (u : UpdaterComponent) (fs : FsEnv),
        (u.start_update fs).bootloader = Bootloader.detect fs) ∧
    (∀ fs : FsEnv, (UpdaterComponent.new fs).bootloader = Bootloader.detect fs) ∧
    (∀ (u : UpdaterComponent) (s : Bool) (e : Option String),
        (u.step_complete s e).bootloader = u.bootloader) ∧
    (∀ (u : UpdaterComponent) (b : Bool), (u.confirm_lilo b).bootloader = u.bootloader) := by
  refine ⟨?_, fun u fs => rfl, fun u fs => rfl, fun fs => rfl, step_complete_bootloader, ?_⟩
  · rintro ⟨l, g, d⟩
    cases l <;> cases g <;> cases d <;> simp [Bootloader.detect]
  · intro u b
    unfold UpdaterComponent.confirm_lilo
    repeat' split
    all_goals simp_all

/-- C8 witness: the classifier evaluated at concrete path sets and the
refresh on reset. -/
theorem C8_env_classifier_witness :
    Bootloader.detect fsLilo = Bootloader.Lilo ∧
    Bootloader.detect fsGrub = Bootloader.Grub ∧
    Bootloader.detect fsNone = Bootloader.Unknown ∧
    (updStarted.reset fsGrub).bootloader = Bootloader.detect fsGrub :=
  ⟨(C8_env_classifier.1 fsLilo).1.mpr (by decide),
   (C8_env_classifier.1 fsGrub).2.1.mpr (by decide),
   (C8_env_classifier.1 fsNone).2.2.mpr (by decide),
   C8_env_classifier.2.1 updStarted fsGrub⟩

/-- C9: a spawn/IO failure is reported as a normal result — success
false, empty stdout, the error text in stderr, no exit code — by both
`execute` and `set_password` (which are total functions into
`CommandResult`), and feeding such a result to the engine halts it
exactly like a process failure. -/
theorem C9_executor_failures :
    (∀ e : String, CommandExecutor.execute (SpawnOutcome.err e) =
        { success := false, stdout := "", stderr := e, exit_code := none }) ∧
    (∀ out : ProcessOutput, CommandExecutor.execute (SpawnOutcome.ok out) =
        { success := out.status_success, stdout := out.stdout, stderr := out.stderr,
          exit_code := out.status_code }) ∧
    (∀ e : String, CommandExecutor.set_password (SetPasswordOutcome.spawnErr e) =
        { success := false, stdout := "", stderr := e, exit_code := none }) ∧
    (∀ e : String, CommandExecutor.set_password (SetPasswordOutcome.waitErr e) =
        { success := false, stdout := "", stderr := e, exit_code := none }) ∧
    (∀ (s : SbotoolsComponent) (e : String), s.current_step < s.steps.length →
        (s.step_complete (CommandExecutor.execute (SpawnOutcome.err e)).success
            (some (CommandExecutor.execute (SpawnOutcome.err e)).stderr)).is_running = false ∧
        statusAt (s.step_complete (CommandExecutor.execute (SpawnOutcome.err e)).success
            (some (CommandExecutor.execute (SpawnOutcome.err e)).stderr)).steps s.current_step =
          some (StepStatus.Failed e)) := by
  refine ⟨fun e => rfl, fun out => rfl, fun e => rfl, fun e => rfl, ?_⟩
  intro s e h
  have hself := statusAt_setStepStatus_self s.steps s.current_step (StepStatus.Failed e) h
  constructor <;>
    simp [CommandExecutor.execute, SbotoolsComponent.step_complete, h, hself]

/-- C9 witness: the engine-halting part applied at the freshly started
sbotools engine with a concrete spawn-error text. -/
theorem C9_executor_failures_witness :
    sboStarted.current_step < sboStarted.steps.length ∧
    ((sboStarted.step_complete
        (CommandExecutor.execute (SpawnOutcome.err "No such file or directory")).success
        (some (CommandExecutor.execute (SpawnOutcome.err "No such file or directory")).stderr)).is_running = false ∧
      statusAt (sboStarted.step_complete
          (CommandExecutor.execute (SpawnOutcome.err "No such file or directory")).success
          (some (CommandExecutor.execute (SpawnOutcome.err "No such file or directory")).stderr)).steps
          sboStarted.current_step =
        some (StepStatus.Failed "No such file or directory")) :=
  ⟨by decide,
   C9_executor_failures.2.2.2.2 sboStarted "No such file or directory" (by decide)⟩

/-- C10: while the optional gate is pending, escape is handled exactly
like a negative answer — it resolves the gate as declined and terminates
the run; only in the mandatory gate does escape merely clear the bypass
buffer and leave the gate pending. -/
theorem C10_escape_semantics :
    (∀ (u : UpdaterComponent) (fs : FsEnv),
        u.show_summary = false → u.show_lilo_confirm = true → u.kernel_updated = false →
        u.handle_input KeyCode.escKey fs = u.handle_input (KeyCode.charKey 'n') fs ∧
        ((u.handle_input KeyCode.escKey fs).1).show_lilo_confirm = false ∧
        ((u.handle_input KeyCode.escKey fs).1).lilo_skipped = true ∧
        ((u.handle_input KeyCode.escKey fs).1).is_running = false ∧
        (u.current_step < u.steps.length →
          statusAt ((u.handle_input KeyCode.escKey fs).1).steps u.current_step =
            some (StepStatus.Failed "Skipped by user"))) ∧
    (∀ (u : UpdaterComponent) (fs : FsEnv),
        u.show_summary = false → u.show_lilo_confirm = true → u.kernel_updated = true →
        ((u.handle_input KeyCode.escKey fs).1).show_lilo_confirm = true ∧
        ((u.handle_input KeyCode.escKey fs).1).skip_input = "" ∧
        ((u.handle_input KeyCode.escKey fs).1).lilo_skipped = u.lilo_skipped) := by
  constructor
  · intro u fs h1 h2 h3
    refine ⟨?_, ?_, ?_, ?_, ?_⟩
    · simp [UpdaterComponent.handle_input, UpdaterComponent.optional_gate_input, h1, h2, h3]
    · simp [UpdaterComponent.handle_input, UpdaterComponent.optional_gate_input,
        UpdaterComponent.confirm_lilo, h1, h2, h3]
    · simp [UpdaterComponent.handle_input, UpdaterComponent.optional_gate_input,
        UpdaterComponent.confirm_lilo, h1, h2, h3]
    · simp [UpdaterComponent.handle_input, UpdaterComponent.optional_gate_input,
        UpdaterComponent.confirm_lilo, h1, h2, h3]
    · intro hlen
      have hself := statusAt_setStepStatus_self u.steps u.current_step
        (StepStatus.Failed "Skipped by user") hlen
      simp [UpdaterComponent.handle_input, UpdaterComponent.optional_gate_input,
        UpdaterComponent.confirm_lilo, h1, h2, h3, hself]
  · intro u fs h1 h2 h3
    refine ⟨?_, ?_, ?_⟩ <;>
      simp [UpdaterComponent.handle_input, UpdaterComponent.mandatory_gate_input, h1, h2, h3]

/-- C10 witness: escape at the concrete optional gate (declines) and at
the concrete mandatory gate (clears the buffer, stays pending). -/
theorem C10_escape_semantics_witness :
    (optionalGatedApp.updater.show_summary = false ∧
      optionalGatedApp.updater.show_lilo_confirm = true ∧
      optionalGatedApp.updater.kernel_updated = false ∧
      optionalGatedApp.updater.handle_input KeyCode.escKey fsLilo =
        optionalGatedApp.updater.handle_input (KeyCode.charKey 'n') fsLilo ∧
      ((optionalGatedApp.updater.handle_input KeyCode.escKey fsLilo).1).show_lilo_confirm
          = false) ∧
    (mandatoryGatedApp.updater.kernel_updated = true ∧
      ((mandatoryGatedApp.updater.handle_input KeyCode.escKey fsLilo).1).show_lilo_confirm
          = true ∧
      ((mandatoryGatedApp.updater.handle_input KeyCode.escKey fsLilo).1).skip_input = "") := by
  have h1 := C10_escape_semantics.1 optionalGatedApp.updater fsLilo
    (by decide) (by decide) (by decide)
  have h2 := C10_escape_semantics.2 mandatoryGatedApp.updater fsLilo
    (by decide) (by decide) (by decide)
  exact ⟨⟨by decide, by decide, by decide, h1.1, h1.2.1⟩, ⟨by decide, h2.1, h2.2.1⟩⟩

end SlackCLI
